import Mathlib

/-!
Shallow embedding of `src/api/whatsapp.ts` (the `Whatsapp` session façade).

The façade holds a handle to a remote page context and forwards each public
method into one evaluation inside that context, against an ambient injected
API surface (`WAPI`).  We model the remote context as an environment of
functions returning `Except`-values (a remote evaluation either yields a
value or rejects with a failure), and each façade method as a function
producing the post-state of the façade object, the ordered trace of remote
invocations it issued, and its result.
-/

namespace Sulla

/-- A remote failure (a thrown/rejected value surfaced across the automation
boundary), kept opaque as its carried message. -/
abbrev Err := String

/-- Modelled from the spec: `src/api/model/chat.ts` is not under `src/`.
Spec section 3: a Chat is a conversation handle whose attributes include an
identifier, a group flag and an unread-state flag. -/
structure Chat where
  id : String
  isGroup : Bool
  hasNewMsg : Bool
deriving Repr, DecidableEq

/-- Modelled from the spec: `src/api/model/contact.ts` is not under `src/`.
Spec section 3: a Contact is a participant record keyed by an identifier. -/
structure Contact where
  id : String
deriving Repr, DecidableEq

/-- Modelled from the spec: `src/api/model/message.ts` is not under `src/`.
Spec section 3: a Message is a conversation entry keyed by an identifier and
associated with a chat. -/
structure Message where
  id : String
  chatId : String
deriving Repr, DecidableEq

/-- Modelled from the spec: `src/api/model/id.ts` is not under `src/`.
Spec section 3: an Id is a serialized identifier wrapper holding a raw
string form under a `_serialized` field. -/
structure Id where
  _serialized : String
deriving Repr, DecidableEq

/-- Opaque group-metadata record (`WAPI.getGroupMetadata` returns `object`). -/
structure GroupMetadata where
  data : String
deriving Repr, DecidableEq

/-- Opaque image payload delivered by `WAPI.getProfilePicFromId`. -/
structure Img where
  bytes : String
deriving Repr, DecidableEq

/-- Argument shape of `WAPI.sendContact`: `string | string[]`. -/
inductive ContactIdArg where
  | single (s : String)
  | several (l : List String)
deriving Repr, DecidableEq

/-- One remote invocation issued by the façade, with the arguments it
forwarded.  `exposeOnMessage` records the page-level callback registration
performed by `onMessage`; every other constructor is a call into the
ambient in-page `WAPI` surface.  (`WAPI.waitNewMessages` is declared in the
source but never invoked by any façade method, so it has no constructor.) -/
inductive RemoteCall where
  | exposeOnMessage
  | sendSeen (toId : String)
  | sendMessage (toId content : String)
  | replyMessage (messageId content : String)
  | sendContact (toId : String) (contactId : ContactIdArg)
  | getAllContacts
  | getAllChats
  | getAllChatsWithNewMsg
  | wapiGetAllGroups
  | getMessageById (messageId : String)
  | getGroupParticipantIDs (groupId : String)
  | getContact (contactId : String)
  | loadAllEarlierMessages (chatId : String)
  | loadEarlierMessages (chatId : String)
  | areAllMessagesLoaded (chatId : String)
  | getAllMessagesInChat (chatId : String)
  | getGroupMetadata (groupId : String)
  | getProfilePicFromId (id : String)
deriving Repr, DecidableEq

/-- The ambient in-page API surface (the `declare module WAPI` block), as its
observable behaviour for one session: each function maps its arguments to
either a value or a rejection.  The callback-style operations
(`loadEarlierMessages`, `loadAllEarlierMessages`, `getProfilePicFromId`) are
modelled by how many times the page invokes the provided callback for a
given key, plus (for the profile picture) the payload it passes. -/
structure WAPIEnv where
  sendMessage : String → String → Except Err Unit
  ReplyMessage : String → String → Except Err Unit
  sendSeen : String → Except Err Unit
  getAllContacts : Except Err (List Contact)
  getAllChats : Except Err (List Chat)
  getAllChatsWithNewMsg : Except Err (List Chat)
  getAllGroups : Except Err (List Chat)
  getMessageById : String → Except Err Message
  getGroupParticipantIDs : String → Except Err (List Id)
  getContact : String → Except Err Contact
  sendContact : String → ContactIdArg → Except Err Unit
  loadAllEarlierMessagesFires : String → Nat
  loadEarlierMessagesFires : String → Nat
  areAllMessagesLoaded : String → Except Err Bool
  getAllMessagesInChat : String → Except Err (List Message)
  getGroupMetadata : String → Except Err GroupMetadata
  getProfilePicFromIdFires : String → Nat
  getProfilePicFromIdImg : String → Img

/-- The remote page/session handle (puppeteer `Page`), reduced to the
behaviour of the in-page context reachable through it. -/
structure Page where
  env : WAPIEnv

/-- The session façade: its only field is the page handle stored by the
constructor (`constructor(public page: Page) { this.page = page; }`). -/
structure Whatsapp where
  page : Page

/-- Outcome of one façade method call built on `page.evaluate`: the façade
object after the call, the ordered remote invocations issued, and the
awaited result (a value or the propagated rejection). -/
structure MethodResult (α : Type) where
  post : Whatsapp
  trace : List RemoteCall
  result : Except Err α

/-- Outcome of one façade method call that wraps a page-side callback in a
promise (via `page.evaluateHandle`): the façade object after the call, the
remote invocations issued, how many times the wrapped promise settled, and
the value it settled with. -/
structure HandleResult (α : Type) where
  post : Whatsapp
  trace : List RemoteCall
  settleCount : Nat
  value : α

/-- JS promise executor semantics: a promise settles at the first `resolve`
invocation and ignores every later one, so it settles `min n 1` times when
`resolve` is invoked `n` times. -/
def promiseSettleCount (resolveInvocations : Nat) : Nat :=
  min resolveInvocations 1

/-- Index-ordered sequencing of settled outcomes: the fulfilled values in
order if all fulfilled, otherwise the first rejection in index order. -/
def sequenceE {α : Type} : List (Except Err α) → Except Err (List α)
  | [] => Except.ok []
  | t :: ts =>
    match t with
    | Except.error e => Except.error e
    | Except.ok a =>
      match sequenceE ts with
      | Except.error e => Except.error e
      | Except.ok as => Except.ok (a :: as)

/-- First rejection among the given outcomes in the order of the schedule
`sched` (a settle order over task indices). -/
def firstErrAt {α : Type} (tasks : List (Except Err α)) : List Nat → Option Err
  | [] => none
  | i :: rest =>
    match tasks[i]? with
    | some (Except.error e) => some e
    | _ => firstErrAt tasks rest

/-- JS `Promise.all` over already-determined task outcomes: if every task
fulfils, it fulfils with the values in task-index order; otherwise it
rejects with the rejection of the task that settles first, where `sched`
gives the settle order of the tasks (falling back to index order for
indices the schedule omits). -/
def promiseAllSched {α : Type} (tasks : List (Except Err α)) (sched : List Nat) :
    Except Err (List α) :=
  match sequenceE tasks with
  | Except.ok as => Except.ok as
  | Except.error e0 => Except.error ((firstErrAt tasks sched).getD e0)

/-- `onMessage(fn)`: registers `fn` via `page.exposeFunction` under the
exposed-function name; it issues no `WAPI` call and awaits no result. -/
def Whatsapp.onMessage (w : Whatsapp) (fn : Message → Unit) : MethodResult Unit :=
  let _ := fn
  ⟨w, [RemoteCall.exposeOnMessage], Except.ok ()⟩

/-- `sendText(to, content)`: one evaluation whose closure calls
`WAPI.sendSeen(to)` then `WAPI.sendMessage(to, content)`; a throw from
`sendSeen` aborts the evaluation before `sendMessage` is invoked. -/
def Whatsapp.sendText (w : Whatsapp) (toId content : String) : MethodResult Unit :=
  let body : List RemoteCall × Except Err Unit :=
    match w.page.env.sendSeen toId with
    | Except.error e => ([RemoteCall.sendSeen toId], Except.error e)
    | Except.ok _ =>
      ([RemoteCall.sendSeen toId, RemoteCall.sendMessage toId content],
        w.page.env.sendMessage toId content)
  ⟨w, body.1, body.2⟩

/-- `replyMessage(messageId, content)`: one evaluation calling
`WAPI.ReplyMessage(messageId, content)`. -/
def Whatsapp.replyMessage (w : Whatsapp) (messageId content : String) :
    MethodResult Unit :=
  ⟨w, [RemoteCall.replyMessage messageId content],
    w.page.env.ReplyMessage messageId content⟩

/-- `sendContact(to, contactId)`: one evaluation calling
`WAPI.sendContact(to, contactId)`. -/
def Whatsapp.sendContact (w : Whatsapp) (toId : String) (contactId : ContactIdArg) :
    MethodResult Unit :=
  ⟨w, [RemoteCall.sendContact toId contactId], w.page.env.sendContact toId contactId⟩

/-- `getAllContacts()`: one evaluation calling `WAPI.getAllContacts()`. -/
def Whatsapp.getAllContacts (w : Whatsapp) : MethodResult (List Contact) :=
  ⟨w, [RemoteCall.getAllContacts], w.page.env.getAllContacts⟩

/-- `getAllChats(withNewMessageOnly)`: evaluates
`WAPI.getAllChatsWithNewMsg()` when the flag is set, `WAPI.getAllChats()`
otherwise, returning the remote result unchanged. -/
def Whatsapp.getAllChats (w : Whatsapp) (withNewMessageOnly : Bool) :
    MethodResult (List Chat) :=
  if withNewMessageOnly then
    ⟨w, [RemoteCall.getAllChatsWithNewMsg], w.page.env.getAllChatsWithNewMsg⟩
  else
    ⟨w, [RemoteCall.getAllChats], w.page.env.getAllChats⟩

/-- `getAllGroups(withNewMessagesOnly)`: evaluates
`WAPI.getAllChatsWithNewMsg()` when the flag is set, `WAPI.getAllChats()`
otherwise, then filters the awaited collection by `chat.isGroup`; a
rejected evaluation propagates unchanged. -/
def Whatsapp.getAllGroups (w : Whatsapp) (withNewMessagesOnly : Bool) :
    MethodResult (List Chat) :=
  if withNewMessagesOnly then
    ⟨w, [RemoteCall.getAllChatsWithNewMsg],
      Except.map (fun chats => chats.filter fun chat => chat.isGroup)
        w.page.env.getAllChatsWithNewMsg⟩
  else
    ⟨w, [RemoteCall.getAllChats],
      Except.map (fun chats => chats.filter fun chat => chat.isGroup)
        w.page.env.getAllChats⟩

/-- `getGroupMembersId(groupId)`: one evaluation calling
`WAPI.getGroupParticipantIDs(groupId)`. -/
def Whatsapp.getGroupMembersId (w : Whatsapp) (groupId : String) :
    MethodResult (List Id) :=
  ⟨w, [RemoteCall.getGroupParticipantIDs groupId],
    w.page.env.getGroupParticipantIDs groupId⟩

/-- `getContact(contactId)`: one evaluation calling
`WAPI.getContact(contactId)`. -/
def Whatsapp.getContact (w : Whatsapp) (contactId : String) : MethodResult Contact :=
  ⟨w, [RemoteCall.getContact contactId], w.page.env.getContact contactId⟩

/-- `getGroupMembers(groupId)`: awaits `this.getGroupMembersId(groupId)`,
maps each returned identifier to `this.getContact(memberId._serialized)`
(starting every lookup, in list order), and awaits `Promise.all` of the
lookups; `sched` is the settle order of the concurrent lookups, which the
source leaves to the runtime. -/
def Whatsapp.getGroupMembers (w : Whatsapp) (groupId : String) (sched : List Nat) :
    MethodResult (List Contact) :=
  let m := w.getGroupMembersId groupId
  let rest : List RemoteCall × Except Err (List Contact) :=
    match m.result with
    | Except.error e => ([], Except.error e)
    | Except.ok membersIds =>
      let actions := membersIds.map fun memberId => w.getContact memberId._serialized
      ((actions.map MethodResult.trace).flatten,
        promiseAllSched (actions.map MethodResult.result) sched)
  ⟨w, m.trace ++ rest.1, rest.2⟩

/-- `getGroupMetadata(groupId)`: one evaluation calling
`WAPI.getGroupMetadata(groupId)`. -/
def Whatsapp.getGroupMetadata (w : Whatsapp) (groupId : String) :
    MethodResult GroupMetadata :=
  ⟨w, [RemoteCall.getGroupMetadata groupId], w.page.env.getGroupMetadata groupId⟩

/-- `getProfilePicFromId(id)`: wraps the callback-style
`WAPI.getProfilePicFromId(id, cb)` in a promise resolved with the image the
page passes to the callback. -/
def Whatsapp.getProfilePicFromId (w : Whatsapp) (id : String) : HandleResult Img :=
  ⟨w, [RemoteCall.getProfilePicFromId id],
    promiseSettleCount (w.page.env.getProfilePicFromIdFires id),
    w.page.env.getProfilePicFromIdImg id⟩

/-- `getMessageById(messageId)`: one evaluation calling
`WAPI.getMessageById(messageId)`. -/
def Whatsapp.getMessageById (w : Whatsapp) (messageId : String) :
    MethodResult Message :=
  ⟨w, [RemoteCall.getMessageById messageId], w.page.env.getMessageById messageId⟩

/-- `areAllMessagesLoaded(chatId)`: one evaluation calling
`WAPI.areAllMessagesLoaded(chatId)`. -/
def Whatsapp.areAllMessagesLoaded (w : Whatsapp) (chatId : String) :
    MethodResult Bool :=
  ⟨w, [RemoteCall.areAllMessagesLoaded chatId],
    w.page.env.areAllMessagesLoaded chatId⟩

/-- `loadEarlierMessagesInChat(chatId)`: wraps the callback-style
`WAPI.loadEarlierMessages(chatId, cb)` in a promise resolved (with no
value) when the page invokes the callback. -/
def Whatsapp.loadEarlierMessagesInChat (w : Whatsapp) (chatId : String) :
    HandleResult Unit :=
  ⟨w, [RemoteCall.loadEarlierMessages chatId],
    promiseSettleCount (w.page.env.loadEarlierMessagesFires chatId), ()⟩

/-- `loadAllEarlierMessagesInChat(chatId)`: wraps the callback-style
`WAPI.loadAllEarlierMessages(chatId, cb)` in a promise resolved (with no
value) when the page invokes the callback. -/
def Whatsapp.loadAllEarlierMessagesInChat (w : Whatsapp) (chatId : String) :
    HandleResult Unit :=
  ⟨w, [RemoteCall.loadAllEarlierMessages chatId],
    promiseSettleCount (w.page.env.loadAllEarlierMessagesFires chatId), ()⟩

/-- `getAllMessagesInChat(chatId)`: one evaluation calling
`WAPI.getAllMessagesInChat(chatId)`. -/
def Whatsapp.getAllMessagesInChat (w : Whatsapp) (chatId : String) :
    MethodResult (List Message) :=
  ⟨w, [RemoteCall.getAllMessagesInChat chatId],
    w.page.env.getAllMessagesInChat chatId⟩

/-- Stub chat collection with group flags true, false, true. -/
def stubChats : List Chat :=
  [⟨"c1", true, false⟩, ⟨"c2", false, false⟩, ⟨"c3", true, false⟩]

/-- Stub remote context on which every operation succeeds: group `g1` has
the member identifiers `a` and `b`, every contact lookup echoes its key,
and every callback-style loader fires its callback exactly once. -/
def stubEnv : WAPIEnv where
  sendMessage := fun _ _ => Except.ok ()
  ReplyMessage := fun _ _ => Except.ok ()
  sendSeen := fun _ => Except.ok ()
  getAllContacts := Except.ok []
  getAllChats := Except.ok stubChats
  getAllChatsWithNewMsg := Except.ok stubChats
  getAllGroups := Except.ok []
  getMessageById := fun m => Except.ok ⟨m, "c1"⟩
  getGroupParticipantIDs := fun g =>
    if g = "g1" then Except.ok [⟨"a"⟩, ⟨"b"⟩] else Except.ok []
  getContact := fun k => Except.ok ⟨k⟩
  sendContact := fun _ _ => Except.ok ()
  loadAllEarlierMessagesFires := fun _ => 1
  loadEarlierMessagesFires := fun _ => 1
  areAllMessagesLoaded := fun _ => Except.ok true
  getAllMessagesInChat := fun _ => Except.ok []
  getGroupMetadata := fun g => Except.ok ⟨g⟩
  getProfilePicFromIdFires := fun _ => 1
  getProfilePicFromIdImg := fun _ => ⟨"img"⟩

/-- A façade over the all-succeeding stub context. -/
def stubW : Whatsapp := ⟨⟨stubEnv⟩⟩

/-- Stub remote context on which every evaluation rejects with `boom` and
no callback-style loader ever fires its callback. -/
def failEnv : WAPIEnv where
  sendMessage := fun _ _ => Except.error "boom"
  ReplyMessage := fun _ _ => Except.error "boom"
  sendSeen := fun _ => Except.error "boom"
  getAllContacts := Except.error "boom"
  getAllChats := Except.error "boom"
  getAllChatsWithNewMsg := Except.error "boom"
  getAllGroups := Except.error "boom"
  getMessageById := fun _ => Except.error "boom"
  getGroupParticipantIDs := fun _ => Except.error "boom"
  getContact := fun _ => Except.error "boom"
  sendContact := fun _ _ => Except.error "boom"
  loadAllEarlierMessagesFires := fun _ => 0
  loadEarlierMessagesFires := fun _ => 0
  areAllMessagesLoaded := fun _ => Except.error "boom"
  getAllMessagesInChat := fun _ => Except.error "boom"
  getGroupMetadata := fun _ => Except.error "boom"
  getProfilePicFromIdFires := fun _ => 0
  getProfilePicFromIdImg := fun _ => ⟨""⟩

/-- A façade over the all-rejecting stub context. -/
def failW : Whatsapp := ⟨⟨failEnv⟩⟩

/-- Stub remote context like `stubEnv` except that the contact lookup for
key `b` rejects with `boom`. -/
def mixedEnv : WAPIEnv :=
  { stubEnv with
    getContact := fun k =>
      if k = "b" then Except.error "boom" else Except.ok ⟨k⟩ }

/-- A façade over the stub context whose lookup for `b` rejects. -/
def mixedW : Whatsapp := ⟨⟨mixedEnv⟩⟩

/-- Flattening a list of singletons is mapping. -/
theorem flatten_map_singleton {α β : Type} (f : α → β) (l : List α) :
    (l.map fun a => [f a]).flatten = l.map f := by
  induction l with
  | nil => rfl
  | cons a l ih => simp [ih]

/-- A rejection among the outcomes makes their index-ordered sequencing a
rejection. -/
theorem sequenceE_error_of_mem {α : Type} {l : List (Except Err α)} {e : Err}
    (h : Except.error e ∈ l) : ∃ e1, sequenceE l = Except.error e1 := by
  induction l with
  | nil => cases h
  | cons x xs ih =>
    cases h with
    | head => exact ⟨e, rfl⟩
    | tail _ hmem =>
      obtain ⟨e1, he1⟩ := ih hmem
      cases x with
      | error e0 => exact ⟨e0, rfl⟩
      | ok a => exact ⟨e1, by simp [sequenceE, he1]⟩

/-- A rejection among the task outcomes makes `Promise.all` reject, under
every settle order. -/
theorem promiseAllSched_error_of_mem {α : Type} {tasks : List (Except Err α)}
    {e : Err} (h : Except.error e ∈ tasks) (sched : List Nat) :
    ∃ e2, promiseAllSched tasks sched = Except.error e2 := by
  obtain ⟨e1, he1⟩ := sequenceE_error_of_mem h
  exact ⟨(firstErrAt tasks sched).getD e1, by simp [promiseAllSched, he1]⟩

/-- Run of `getGroupMembers` once the identifier query succeeded: the trace
is the identifier query followed by one contact lookup per identifier, in
list order and keyed by `_serialized`, and the result is `Promise.all` of
the per-identifier lookups. -/
theorem getGroupMembers_run (w : Whatsapp) (groupId : String) (sched : List Nat)
    (ids : List Id)
    (hids : w.page.env.getGroupParticipantIDs groupId = Except.ok ids) :
    (w.getGroupMembers groupId sched).trace
      = RemoteCall.getGroupParticipantIDs groupId
          :: ids.map (fun i => RemoteCall.getContact i._serialized)
    ∧ (w.getGroupMembers groupId sched).result
      = promiseAllSched (ids.map fun i => w.page.env.getContact i._serialized)
          sched := by
  unfold Whatsapp.getGroupMembers Whatsapp.getGroupMembersId Whatsapp.getContact
  simp [hids, List.map_map, Function.comp_def, flatten_map_singleton]

/-- C1: for every pair of inputs, `sendText(to, content)` invokes
`WAPI.sendSeen` with `to` before invoking `WAPI.sendMessage` with
`(to, content)`, forwarding both arguments unchanged (stated whenever the
mark-seen call itself completes, since a throw there aborts the closure). -/
theorem sendText_marks_seen_before_sending (w : Whatsapp) (toId content : String)
    (h : w.page.env.sendSeen toId = Except.ok ()) :
    (w.sendText toId content).trace
      = [RemoteCall.sendSeen toId, RemoteCall.sendMessage toId content] := by
  simp [Whatsapp.sendText, h]

/-- Witness for C1 at the all-succeeding stub context. -/
theorem sendText_marks_seen_before_sending_witness :
    stubW.page.env.sendSeen "u1" = Except.ok ()
    ∧ (stubW.sendText "u1" "hello").trace
        = [RemoteCall.sendSeen "u1", RemoteCall.sendMessage "u1" "hello"] :=
  ⟨rfl, sendText_marks_seen_before_sending stubW "u1" "hello" rfl⟩

/-- C2: whichever remote enumeration the flag selects, `getAllGroups`
returns exactly the returned entries whose `isGroup` flag is set, in their
original order (i.e. the filtered collection). -/
theorem getAllGroups_filters_group_flag (w : Whatsapp) (b : Bool)
    (chats : List Chat)
    (h : (if b then w.page.env.getAllChatsWithNewMsg else w.page.env.getAllChats)
          = Except.ok chats) :
    (w.getAllGroups b).result
      = Except.ok (chats.filter fun chat => chat.isGroup) := by
  cases b <;> simp at h <;> simp [Whatsapp.getAllGroups, h, Except.map]

/-- Witness for C2 at the stub collection with group flags true, false,
true: the two group entries come back, in order. -/
theorem getAllGroups_filters_group_flag_witness :
    (if false then stubW.page.env.getAllChatsWithNewMsg
      else stubW.page.env.getAllChats) = Except.ok stubChats
    ∧ (stubW.getAllGroups false).result
        = Except.ok [⟨"c1", true, false⟩, ⟨"c3", true, false⟩] := by
  refine ⟨rfl, ?_⟩
  have h := getAllGroups_filters_group_flag stubW false stubChats rfl
  exact h.trans rfl

/-- C3: once the identifier query returns `ids`, `getGroupMembers` issues
exactly one contact lookup per identifier, keyed by its `_serialized`
string and in list order, and under every settle order of the concurrent
lookups it returns the assembled results in identifier order. -/
theorem getGroupMembers_lookups_in_order (w : Whatsapp) (groupId : String)
    (sched : List Nat) (ids : List Id) (cs : List Contact)
    (hids : w.page.env.getGroupParticipantIDs groupId = Except.ok ids)
    (hcs : sequenceE (ids.map fun i => w.page.env.getContact i._serialized)
            = Except.ok cs) :
    (w.getGroupMembers groupId sched).trace
      = RemoteCall.getGroupParticipantIDs groupId
          :: ids.map (fun i => RemoteCall.getContact i._serialized)
    ∧ (w.getGroupMembers groupId sched).result = Except.ok cs := by
  obtain ⟨ht, hr⟩ := getGroupMembers_run w groupId sched ids hids
  refine ⟨ht, ?_⟩
  rw [hr]
  simp [promiseAllSched, hcs]

/-- Witness for C3 at the stub whose group `g1` has members `a` and `b`,
with the settle order that completes the lookup for `b` first. -/
theorem getGroupMembers_lookups_in_order_witness :
    stubW.page.env.getGroupParticipantIDs "g1" = Except.ok [⟨"a"⟩, ⟨"b"⟩]
    ∧ sequenceE (([⟨"a"⟩, ⟨"b"⟩] : List Id).map
        fun i => stubW.page.env.getContact i._serialized)
        = Except.ok [⟨"a"⟩, ⟨"b"⟩]
    ∧ (stubW.getGroupMembers "g1" [1, 0]).trace
        = RemoteCall.getGroupParticipantIDs "g1"
            :: ([⟨"a"⟩, ⟨"b"⟩] : List Id).map
                (fun i => RemoteCall.getContact i._serialized)
    ∧ (stubW.getGroupMembers "g1" [1, 0]).result
        = Except.ok [⟨"a"⟩, ⟨"b"⟩] := by
  have h := getGroupMembers_lookups_in_order stubW "g1" [1, 0]
    [⟨"a"⟩, ⟨"b"⟩] [⟨"a"⟩, ⟨"b"⟩] rfl rfl
  exact ⟨rfl, rfl, h.1, h.2⟩

/-- C4: `getAllChats(true)` invokes exactly the chats-with-new-message
query and `getAllChats(false)` exactly the plain all-chats query, each
returning the full remote result unchanged. -/
theorem getAllChats_selects_query (w : Whatsapp) :
    (w.getAllChats true).trace = [RemoteCall.getAllChatsWithNewMsg]
    ∧ (w.getAllChats true).result = w.page.env.getAllChatsWithNewMsg
    ∧ (w.getAllChats false).trace = [RemoteCall.getAllChats]
    ∧ (w.getAllChats false).result = w.page.env.getAllChats :=
  ⟨rfl, rfl, rfl, rfl⟩

/-- C5: if the identifier query succeeds but any single per-member contact
lookup rejects, the whole `getGroupMembers` call rejects, under every
settle order: no partial result collection is returned. -/
theorem getGroupMembers_fails_whole (w : Whatsapp) (groupId : String)
    (sched : List Nat) (ids : List Id) (i : Id) (e : Err)
    (hids : w.page.env.getGroupParticipantIDs groupId = Except.ok ids)
    (hmem : i ∈ ids)
    (herr : w.page.env.getContact i._serialized = Except.error e) :
    ∃ e2, (w.getGroupMembers groupId sched).result = Except.error e2 := by
  obtain ⟨_, hr⟩ := getGroupMembers_run w groupId sched ids hids
  rw [hr]
  have hmem2 : Except.error e
      ∈ ids.map fun j => w.page.env.getContact j._serialized :=
    List.mem_map.mpr ⟨i, hmem, herr⟩
  exact promiseAllSched_error_of_mem hmem2 sched

/-- Witness for C5 at the stub whose lookup for `b` rejects. -/
theorem getGroupMembers_fails_whole_witness :
    mixedW.page.env.getGroupParticipantIDs "g1" = Except.ok [⟨"a"⟩, ⟨"b"⟩]
    ∧ (⟨"b"⟩ : Id) ∈ ([⟨"a"⟩, ⟨"b"⟩] : List Id)
    ∧ mixedW.page.env.getContact (Id.mk "b")._serialized = Except.error "boom"
    ∧ ∃ e2, (mixedW.getGroupMembers "g1" [1, 0]).result = Except.error e2 :=
  ⟨rfl, by simp, rfl,
    getGroupMembers_fails_whole mixedW "g1" [1, 0] [⟨"a"⟩, ⟨"b"⟩] ⟨"b"⟩ "boom"
      rfl (by simp) rfl⟩

/-- C6: `loadEarlierMessagesInChat(chatId)` forwards `chatId` unchanged to
`WAPI.loadEarlierMessages`, and when the remote loader invokes its
completion callback exactly once the wrapped promise settles exactly
once. -/
theorem loadEarlierMessagesInChat_single_resolution (w : Whatsapp)
    (chatId : String)
    (h : w.page.env.loadEarlierMessagesFires chatId = 1) :
    (w.loadEarlierMessagesInChat chatId).trace
      = [RemoteCall.loadEarlierMessages chatId]
    ∧ (w.loadEarlierMessagesInChat chatId).settleCount = 1 :=
  ⟨rfl, by simp [Whatsapp.loadEarlierMessagesInChat, promiseSettleCount, h]⟩

/-- Witness for C6 at the stub whose loader fires its callback once. -/
theorem loadEarlierMessagesInChat_single_resolution_witness :
    stubW.page.env.loadEarlierMessagesFires "c1" = 1
    ∧ (stubW.loadEarlierMessagesInChat "c1").trace
        = [RemoteCall.loadEarlierMessages "c1"]
    ∧ (stubW.loadEarlierMessagesInChat "c1").settleCount = 1 := by
  have h := loadEarlierMessagesInChat_single_resolution stubW "c1" rfl
  exact ⟨rfl, h.1, h.2⟩

/-- C7: each keyed-read method (`getContact`, `getMessageById`,
`getGroupMetadata`, `getGroupMembersId`) surfaces a rejection of its
underlying remote evaluation as its own result, unmodified. -/
theorem keyedReads_propagate_failure (w : Whatsapp) (k : String) (e : Err) :
    (w.page.env.getContact k = Except.error e
      → (w.getContact k).result = Except.error e)
    ∧ (w.page.env.getMessageById k = Except.error e
      → (w.getMessageById k).result = Except.error e)
    ∧ (w.page.env.getGroupMetadata k = Except.error e
      → (w.getGroupMetadata k).result = Except.error e)
    ∧ (w.page.env.getGroupParticipantIDs k = Except.error e
      → (w.getGroupMembersId k).result = Except.error e) :=
  ⟨fun h => h, fun h => h, fun h => h, fun h => h⟩

/-- Witness for C7 at the all-rejecting stub context. -/
theorem keyedReads_propagate_failure_witness :
    failW.page.env.getContact "k" = Except.error "boom"
    ∧ (failW.getContact "k").result = Except.error "boom"
    ∧ (failW.getMessageById "k").result = Except.error "boom"
    ∧ (failW.getGroupMetadata "k").result = Except.error "boom"
    ∧ (failW.getGroupMembersId "k").result = Except.error "boom" := by
  have h := keyedReads_propagate_failure failW "k" "boom"
  exact ⟨rfl, h.1 rfl, h.2.1 rfl, h.2.2.1 rfl, h.2.2.2 rfl⟩

/-- C8: the constructor stores the given page handle, and every public
method of the façade leaves it unchanged. -/
theorem facade_preserves_page_handle :
    (∀ p : Page, (Whatsapp.mk p).page = p)
    ∧ ∀ (w : Whatsapp) (fn : Message → Unit)
        (toId content messageId chatId groupId k id : String)
        (carg : ContactIdArg) (b : Bool) (sched : List Nat),
      (w.onMessage fn).post.page = w.page
      ∧ (w.sendText toId content).post.page = w.page
      ∧ (w.replyMessage messageId content).post.page = w.page
      ∧ (w.sendContact toId carg).post.page = w.page
      ∧ w.getAllContacts.post.page = w.page
      ∧ (w.getAllChats b).post.page = w.page
      ∧ (w.getAllGroups b).post.page = w.page
      ∧ (w.getGroupMembersId groupId).post.page = w.page
      ∧ (w.getGroupMembers groupId sched).post.page = w.page
      ∧ (w.getGroupMetadata groupId).post.page = w.page
      ∧ (w.getProfilePicFromId id).post.page = w.page
      ∧ (w.getContact k).post.page = w.page
      ∧ (w.getMessageById messageId).post.page = w.page
      ∧ (w.areAllMessagesLoaded chatId).post.page = w.page
      ∧ (w.loadEarlierMessagesInChat chatId).post.page = w.page
      ∧ (w.loadAllEarlierMessagesInChat chatId).post.page = w.page
      ∧ (w.getAllMessagesInChat chatId).post.page = w.page := by
  refine ⟨fun p => rfl,
    fun w fn toId content messageId chatId groupId k id carg b sched => ?_⟩
  refine ⟨rfl, rfl, rfl, rfl, rfl, ?_, ?_, rfl, rfl, rfl, rfl, rfl, rfl, rfl,
    rfl, rfl, rfl⟩
  · cases b <;> rfl
  · cases b <;> rfl

/-- C9: for every flag, `getAllGroups` issues exactly the remote
invocations of `getAllChats` with that flag, its result is that method's
result filtered by the group flag, and the ambient `WAPI.getAllGroups`
function is never invoked. -/
theorem getAllGroups_refines_getAllChats (w : Whatsapp) (b : Bool) :
    (w.getAllGroups b).trace = (w.getAllChats b).trace
    ∧ (w.getAllGroups b).result
        = Except.map (fun chats => chats.filter fun chat => chat.isGroup)
            (w.getAllChats b).result
    ∧ RemoteCall.wapiGetAllGroups ∉ (w.getAllGroups b).trace := by
  cases b <;> exact ⟨rfl, rfl, by simp [Whatsapp.getAllGroups]⟩

/-- C10: when the identifier query returns the empty list,
`getGroupMembers` returns the empty collection and issues no contact
lookup, under every settle order. -/
theorem getGroupMembers_empty (w : Whatsapp) (groupId : String)
    (sched : List Nat)
    (h : w.page.env.getGroupParticipantIDs groupId = Except.ok []) :
    (w.getGroupMembers groupId sched).trace
      = [RemoteCall.getGroupParticipantIDs groupId]
    ∧ (w.getGroupMembers groupId sched).result = Except.ok [] := by
  obtain ⟨ht, hr⟩ := getGroupMembers_run w groupId sched [] h
  refine ⟨by simpa using ht, ?_⟩
  rw [hr]
  rfl

/-- Witness for C10 at the stub whose group `g2` has no members. -/
theorem getGroupMembers_empty_witness :
    stubW.page.env.getGroupParticipantIDs "g2" = Except.ok []
    ∧ (stubW.getGroupMembers "g2" []).trace
        = [RemoteCall.getGroupParticipantIDs "g2"]
    ∧ (stubW.getGroupMembers "g2" []).result = Except.ok [] := by
  have h := getGroupMembers_empty stubW "g2" [] (by simp [stubEnv, stubW])
  exact ⟨by simp [stubEnv, stubW], h.1, h.2⟩

end Sulla
